import Mathlib

/-!
Shallow embedding of `src/scripts/generate_pointclouds.py`.

The script synthesizes `num_frames` random point-cloud frames and appends them
to a rosbag container under a topic name.  External effects (the numpy random
source, the ROS wall clock, and the success of the bag open, write and close
calls) are parameters of the embedding, collected in `Env`.  The run is a
function producing the trace of observable events, the final content of the
bag file, and an outcome (`Except IOError Unit`).
-/

namespace GenPointclouds

/-- A byte of the packed point-cloud payload: a natural number below 256. -/
abbrev Byte := Nat

/-- Sign bit of an IEEE-754 binary32 bit pattern. -/
def f32sign (b : Nat) : Nat := b / 2 ^ 31 % 2

/-- Exponent field (8 bits) of an IEEE-754 binary32 bit pattern. -/
def f32exp (b : Nat) : Nat := b / 2 ^ 23 % 2 ^ 8

/-- Fraction field (23 bits) of an IEEE-754 binary32 bit pattern. -/
def f32frac (b : Nat) : Nat := b % 2 ^ 23

/-- A binary32 bit pattern denotes a finite number exactly when its exponent
field is not all ones (all-ones encodes infinities and NaNs). -/
def f32finite (b : Nat) : Prop := f32exp b ≠ 255

instance : DecidablePred f32finite := fun b => by unfold f32finite; infer_instance

/-- Rational value denoted by a finite binary32 bit pattern: for a normal
number, sign times `1.frac` times `2 ^ (e - 127)`; for exponent zero, the
subnormal value sign times `frac * 2 ^ (-149)`. -/
def f32val (b : Nat) : ℚ :=
  let s : ℚ := if f32sign b = 1 then -1 else 1
  if f32exp b = 0 then s * f32frac b / 2 ^ 149
  else s * (2 ^ 23 + f32frac b) * 2 ^ f32exp b / 2 ^ 150

/-- Modelled contract of one scalar produced by
`np.random.rand(...).astype(np.float32)`: a 32-bit pattern denoting a finite
value in the interval [0, 1). -/
def goodF32 (b : Nat) : Prop :=
  b < 2 ^ 32 ∧ f32finite b ∧ 0 ≤ f32val b ∧ f32val b < 1

instance : DecidablePred goodF32 := fun b => by unfold goodF32; infer_instance

/-- The four bytes of one 32-bit pattern in little-endian order, as produced by
`struct.pack` for a single float32 (native byte order of the platforms the
script targets, matching the message's `is_bigendian = False`). -/
def natToBytesLE4 (b : Nat) : List Byte :=
  [b % 256, b / 256 % 256, b / 65536 % 256, b / 16777216 % 256]

/-- `struct.pack('ffff', p[0], p[1], p[2], p[3])`: one 16-byte point record,
four packed little-endian float32 values with no padding. -/
def packPoint (p : Nat → Nat) : List Byte :=
  natToBytesLE4 (p 0) ++ natToBytesLE4 (p 1) ++ natToBytesLE4 (p 2) ++ natToBytesLE4 (p 3)

/-- Little-endian decoding of a byte list back into a natural number. -/
def bytesToNatLE (bs : List Byte) : Nat :=
  bs.foldr (fun b acc => b + 256 * acc) 0

/-- Decoder for field `k` of point record `j` inside a packed payload:
read 4 bytes at offset `16 * j + 4 * k` as a little-endian 32-bit pattern. -/
def decodeField (data : List Byte) (j k : Nat) : Nat :=
  bytesToNatLE ((data.drop (16 * j + 4 * k)).take 4)

/-- `sensor_msgs/PointField`: constructed in the source as
`PointField(name, offset, datatype, count)`. -/
structure PointField where
  name : String
  offset : Nat
  datatype : Nat
  count : Nat
deriving DecidableEq

/-- The `PointField.FLOAT32` datatype constant of `sensor_msgs`. -/
def FLOAT32 : Nat := 7

/-- The field descriptor list built afresh for every frame. -/
def fields : List PointField :=
  [⟨"x", 0, FLOAT32, 1⟩, ⟨"y", 4, FLOAT32, 1⟩,
   ⟨"z", 8, FLOAT32, 1⟩, ⟨"intensity", 12, FLOAT32, 1⟩]

/-- `num_points = 10` in the source. -/
def num_points : Nat := 10

/-- `sensor_msgs/PointCloud2` message, with the header flattened to the two
fields the script sets (`header.stamp`, `header.frame_id`).  Timestamps are
ROS times modelled as natural numbers (nanoseconds). -/
structure PointCloud2 where
  stamp : Nat
  frame_id : String
  height : Nat
  width : Nat
  fields : List PointField
  is_bigendian : Bool
  point_step : Nat
  row_step : Nat
  is_dense : Bool
  data : List Byte
deriving DecidableEq

/-- Ascending list of `r` frame indices starting at `s` (`range(num_frames)`
is `frameIdx 0 num_frames`). -/
def frameIdx : Nat → Nat → List Nat
  | _, 0 => []
  | s, r + 1 => s :: frameIdx (s + 1) r

/-- Concatenation of the images of a list, mirroring Python's
`b''.join(cloud_data)` over the per-point packed records. -/
def concatMap (f : α → List β) : List α → List β
  | [] => []
  | a :: l => f a ++ concatMap f l

/-- The packed payload of one frame: the concatenation of the 10 packed point
records drawn from `rng` (`rng j k` is the bit pattern of component `k` of
point `j`). -/
def cloudData (rng : Nat → Nat → Nat) : List Byte :=
  concatMap (fun j => packPoint (rng j)) (frameIdx 0 num_points)

/-- The external effects the script consumes, as oracles:
`rng i j k` is the float32 bit pattern drawn by `np.random.rand` for frame
`i`, point `j`, component `k`; `clock t` is the value of the `t`-th call to
`rospy.Time.now()` (two calls per frame: capture then append);
`openOk`, `writeOk i` and `closeOk` tell whether `rosbag.Bag(bag_file, 'w')`,
the `i`-th `bag.write`, and the closing flush run by the `with` block's exit
succeed. -/
structure Env where
  rng : Nat → Nat → Nat → Nat
  clock : Nat → Nat
  openOk : Bool
  writeOk : Nat → Bool
  closeOk : Bool

/-- The `PointCloud2` message built for frame `i`: capture stamp from the
first clock read of the frame, fixed `velodyne` frame id, unstructured
(`height = 1`), dense, 16-byte point stride, random payload. -/
def makeMsg (env : Env) (i : Nat) : PointCloud2 :=
  { stamp := env.clock (2 * i)
    frame_id := "velodyne"
    height := 1
    width := num_points
    fields := GenPointclouds.fields
    is_bigendian := false
    point_step := 16
    row_step := 16 * num_points
    is_dense := true
    data := cloudData (env.rng i) }

/-- The exception `rospy.init_node` raises when the node is already
initialized in the process. -/
inductive RosError
  | alreadyInit
deriving DecidableEq

/-- I/O failures of the container: the bag cannot be opened for writing, the
`i`-th `bag.write` fails, or the close (index flush) performed by the `with`
block's exit fails. -/
inductive IOError
  | openFailed
  | writeFailed (frame : Nat)
  | closeFailed
deriving DecidableEq

/-- Observable events of a run, in program order. -/
inductive Event
  | print (s : String)
  | openBag (path : String)
  | writeBag (topic : String) (msg : PointCloud2) (t : Nat)
  | sleepMs (ms : Nat)
  | closeBag
deriving DecidableEq

/-- True exactly on `bag.write` call events. -/
def isWriteEvent : Event → Bool
  | .writeBag _ _ _ => true
  | _ => false

/-- `rospy.init_node('vidbag2mmd', anonymous=True)`: raises `ROSException`
when the node has already been initialized, otherwise succeeds. -/
def ros_init_node (alreadyInitialized : Bool) : Except RosError Unit :=
  if alreadyInitialized then .error .alreadyInit else .ok ()

/-- One container entry: topic name, serialized message, append timestamp. -/
abbrev BagEntry := String × PointCloud2 × Nat

/-- The entry appended for frame `i`: the frame's message, under the topic,
tagged with the second clock read of the frame (`rospy.Time.now()` at the
`bag.write` call). -/
def entryOf (env : Env) (topic : String) (i : Nat) : BagEntry :=
  (topic, makeMsg env i, env.clock (2 * i + 1))

/-- The three progress prints of one loop iteration. -/
def framePrints (n i : Nat) (topic : String) : List Event :=
  [.print ("Generating frame " ++ toString (i + 1) ++ "/" ++ toString n),
   .print ("Generating point cloud with " ++ toString num_points ++ " points."),
   .print ("Writing frame " ++ toString (i + 1) ++ "/" ++ toString n ++ " to topic " ++ topic)]

/-- The event trace of one successful loop iteration: prints, the `bag.write`
call, then `time.sleep(0.1)` (100 ms). -/
def okFrameEvents (env : Env) (topic : String) (n i : Nat) : List Event :=
  framePrints n i topic ++
    [.writeBag topic (makeMsg env i) (env.clock (2 * i + 1)), .sleepMs 100]

/-- The `for i in range(num_frames)` loop, starting at frame `s` with `r`
iterations left: each iteration builds the frame message, calls `bag.write`,
and sleeps; a failing write raises, ending the loop with no entry for the
failing frame and no sleep.  Returns (events, entries appended, error). -/
def runLoop (env : Env) (topic : String) (n : Nat) :
    Nat → Nat → List Event × List BagEntry × Option IOError
  | _, 0 => ([], [], none)
  | s, r + 1 =>
    if env.writeOk s then
      let rest := runLoop env topic n (s + 1) r
      (okFrameEvents env topic n s ++ rest.1, entryOf env topic s :: rest.2.1, rest.2.2)
    else
      (framePrints n s topic ++ [.writeBag topic (makeMsg env s) (env.clock (2 * s + 1))],
       [], some (.writeFailed s))

/-- Result of a run: the event trace, the content of the bag file at
`bag_file` after the run, and the outcome (normal return or the uncaught
exception). -/
structure RunResult where
  events : List Event
  fileContent : List BagEntry
  outcome : Except IOError Unit

/-- The `try: rospy.init_node(...) except rospy.exceptions.ROSException:`
block: the conflict is caught and only logged, either way one line is
printed and execution continues. -/
def initEvents (nodeInitialized : Bool) : List Event :=
  match ros_init_node nodeInitialized with
  | .ok _ => [Event.print "Ros node initialized."]
  | .error _ => [Event.print "Node has already been initialized."]

/-- `write_random_pointcloud_bag(bag_file, topic_name, num_frames)`.
`nodeInitialized` says whether the ROS node was already initialized before
the call; `prior` is the content at `bag_file` before the run.  The `try`
around `rospy.init_node` catches `ROSException` only; `rosbag.Bag(bag_file,
'w')` truncates prior content (write mode); the `with` block calls
`bag.close()` on every exit path, and no `IOError` is caught: a failing
open, write, or close propagates to the caller (a close failure raised in
the block's exit propagates even when the body already failed, as Python's
`with` replaces the body's exception with the one raised on exit). -/
def write_random_pointcloud_bag (env : Env) (nodeInitialized : Bool)
    (bag_file topic_name : String) (num_frames : Int) (prior : List BagEntry) : RunResult :=
  let pre := initEvents nodeInitialized ++ [Event.print ("Creating bag file: " ++ bag_file)]
  if env.openOk then
    let r := runLoop env topic_name num_frames.toNat 0 num_frames.toNat
    match r.2.2 with
    | none =>
      if env.closeOk then
        ⟨pre ++ [Event.openBag bag_file] ++ r.1 ++
           [Event.closeBag,
            Event.print ("Finished writing " ++ toString num_frames ++ " frames to " ++ bag_file)],
         r.2.1, .ok ()⟩
      else
        ⟨pre ++ [Event.openBag bag_file] ++ r.1 ++ [Event.closeBag], r.2.1, .error .closeFailed⟩
    | some e =>
      if env.closeOk then
        ⟨pre ++ [Event.openBag bag_file] ++ r.1 ++ [Event.closeBag], r.2.1, .error e⟩
      else
        ⟨pre ++ [Event.openBag bag_file] ++ r.1 ++ [Event.closeBag], r.2.1, .error .closeFailed⟩
  else
    ⟨pre, prior, .error .openFailed⟩

/-- Concrete environment for evaluation: all draws are the pattern of +0.0,
the clock is the identity, every I/O call succeeds. -/
def envW : Env :=
  { rng := fun _ _ _ => 0, clock := fun t => t, openOk := true, writeOk := fun _ => true,
    closeOk := true }

/-- Concrete environment whose second `bag.write` (frame 1) fails. -/
def envF : Env :=
  { rng := fun _ _ _ => 0, clock := fun t => t, openOk := true, writeOk := fun i => i != 1,
    closeOk := true }

/-- Concrete environment whose bag open fails. -/
def envO : Env :=
  { rng := fun _ _ _ => 0, clock := fun t => t, openOk := false, writeOk := fun _ => true,
    closeOk := true }

/-- Concrete environment whose bag close fails. -/
def envC : Env :=
  { rng := fun _ _ _ => 0, clock := fun t => t, openOk := true, writeOk := fun _ => true,
    closeOk := false }

/-! Helper lemmas about the packed payload. -/

lemma goodF32_zero : goodF32 0 := by
  have h : f32val 0 = 0 := by simp [f32val, f32sign, f32exp, f32frac]
  exact ⟨by norm_num, by simp [f32finite, f32exp], h.ge, by rw [h]; norm_num⟩

lemma bytesToNatLE_natToBytesLE4 (b : Nat) (hb : b < 2 ^ 32) :
    bytesToNatLE (natToBytesLE4 b) = b := by
  simp only [bytesToNatLE, natToBytesLE4, List.foldr]
  omega

lemma length_cloudData (rng : Nat → Nat → Nat) : (cloudData rng).length = 160 := rfl

lemma record_of_cloudData (rng : Nat → Nat → Nat) (j : Nat) (hj : j < 10) :
    ((cloudData rng).drop (16 * j)).take 16 = packPoint (rng j) := by
  interval_cases j <;> rfl

lemma decode_cloudData (rng : Nat → Nat → Nat) (j k : Nat) (hj : j < 10) (hk : k < 4)
    (hb : rng j k < 2 ^ 32) :
    decodeField (cloudData rng) j k = rng j k := by
  have base : decodeField (cloudData rng) j k = bytesToNatLE (natToBytesLE4 (rng j k)) := by
    interval_cases j <;> interval_cases k <;> rfl
  rw [base]
  exact bytesToNatLE_natToBytesLE4 _ hb

/-! Helper lemmas about `frameIdx` and the loop. -/

lemma length_frameIdx : ∀ r s, (frameIdx s r).length = r
  | 0, _ => rfl
  | r + 1, s => by simp [frameIdx, length_frameIdx r (s + 1)]

lemma length_map_frameIdx (f : Nat → α) (r s : Nat) :
    ((frameIdx s r).map f).length = r := by
  simp [List.length_map, length_frameIdx]

lemma get_map_frameIdx (f : Nat → α) :
    ∀ r s j (h : j < ((frameIdx s r).map f).length),
      ((frameIdx s r).map f).get ⟨j, h⟩ = f (s + j) := by
  intro r
  induction r with
  | zero => intro s j h; simp [frameIdx] at h
  | succ r ih =>
    intro s j h
    match j with
    | 0 => simp [frameIdx]
    | j + 1 =>
      have h' : j < ((frameIdx (s + 1) r).map f).length := by
        rw [length_map_frameIdx] at h ⊢
        omega
      have step : ((frameIdx s (r + 1)).map f).get ⟨j + 1, h⟩ =
          ((frameIdx (s + 1) r).map f).get ⟨j, h'⟩ := by
        simp [frameIdx]
      rw [step, ih (s + 1) j h']
      congr 1
      omega

lemma concatMap_append (f : α → List β) :
    ∀ l₁ l₂ : List α, concatMap f (l₁ ++ l₂) = concatMap f l₁ ++ concatMap f l₂
  | [], _ => rfl
  | a :: l₁, l₂ => by
    simp [concatMap, concatMap_append f l₁ l₂]

lemma runLoop_ok (env : Env) (topic : String) (n : Nat) :
    ∀ r s, (∀ m, m < r → env.writeOk (s + m) = true) →
      runLoop env topic n s r =
        (concatMap (okFrameEvents env topic n) (frameIdx s r),
         (frameIdx s r).map (entryOf env topic), none) := by
  intro r
  induction r with
  | zero => intro s _; rfl
  | succ r ih =>
    intro s h
    have hs : env.writeOk s = true := by simpa using h 0 (Nat.succ_pos r)
    have hrest : ∀ m, m < r → env.writeOk (s + 1 + m) = true := by
      intro m hm
      have := h (m + 1) (Nat.succ_lt_succ hm)
      simpa [Nat.add_assoc, Nat.add_comm 1 m] using this
    simp [runLoop, hs, ih (s + 1) hrest, frameIdx, concatMap]

lemma runLoop_err (env : Env) (topic : String) (n : Nat) :
    ∀ d s r, d < r → (∀ m, m < d → env.writeOk (s + m) = true) →
      env.writeOk (s + d) = false →
      runLoop env topic n s r =
        (concatMap (okFrameEvents env topic n) (frameIdx s d) ++
           framePrints n (s + d) topic ++
           [.writeBag topic (makeMsg env (s + d)) (env.clock (2 * (s + d) + 1))],
         (frameIdx s d).map (entryOf env topic), some (.writeFailed (s + d))) := by
  intro d
  induction d with
  | zero =>
    intro s r hd _ hfail
    match r, hd with
    | r + 1, _ =>
      simp only [Nat.add_zero] at hfail
      simp [runLoop, hfail, frameIdx, concatMap]
  | succ d ih =>
    intro s r hd hok hfail
    match r, hd with
    | r + 1, hd =>
      have hs : env.writeOk s = true := by simpa using hok 0 (Nat.succ_pos d)
      have hok' : ∀ m, m < d → env.writeOk (s + 1 + m) = true := by
        intro m hm
        have := hok (m + 1) (Nat.succ_lt_succ hm)
        simpa [Nat.add_assoc, Nat.add_comm 1 m] using this
      have hfail' : env.writeOk (s + 1 + d) = false := by
        simpa [Nat.add_assoc, Nat.add_comm 1 d] using hfail
      have hrec := ih (s + 1) r (Nat.lt_of_succ_lt_succ hd) hok' hfail'
      have heq : s + (d + 1) = s + 1 + d := by omega
      rw [heq]
      simp [runLoop, hs, hrec, frameIdx, concatMap, List.append_assoc]

/-- Closed form of a run in which the bag opens, every write succeeds, and
the closing flush succeeds. -/
lemma run_ok (env : Env) (ni : Bool) (bag_file topic_name : String) (num_frames : Int)
    (prior : List BagEntry) (hopen : env.openOk = true) (hw : ∀ i, env.writeOk i = true)
    (hclose : env.closeOk = true) :
    write_random_pointcloud_bag env ni bag_file topic_name num_frames prior =
      ⟨initEvents ni ++ [Event.print ("Creating bag file: " ++ bag_file)] ++
         [Event.openBag bag_file] ++
         concatMap (okFrameEvents env topic_name num_frames.toNat)
           (frameIdx 0 num_frames.toNat) ++
         [Event.closeBag,
          Event.print ("Finished writing " ++ toString num_frames ++ " frames to " ++ bag_file)],
       (frameIdx 0 num_frames.toNat).map (entryOf env topic_name), Except.ok ()⟩ := by
  have hl := runLoop_ok env topic_name num_frames.toNat num_frames.toNat 0
    (fun m _ => by simpa using hw m)
  simp [write_random_pointcloud_bag, hopen, hclose, hl, List.append_assoc]

/-- Content and the pre-close event trace of a run in which the bag opens
and every write succeeds, independent of whether the closing flush
succeeds. -/
lemma run_ok_content (env : Env) (ni : Bool) (bag_file topic_name : String)
    (num_frames : Int) (prior : List BagEntry)
    (hopen : env.openOk = true) (hw : ∀ i, env.writeOk i = true) :
    (write_random_pointcloud_bag env ni bag_file topic_name num_frames prior).fileContent
      = (frameIdx 0 num_frames.toNat).map (entryOf env topic_name) ∧
    ∃ post, (write_random_pointcloud_bag env ni bag_file topic_name num_frames prior).events
      = initEvents ni ++ [Event.print ("Creating bag file: " ++ bag_file)] ++
          [Event.openBag bag_file] ++
          concatMap (okFrameEvents env topic_name num_frames.toNat)
            (frameIdx 0 num_frames.toNat) ++ post := by
  have hl := runLoop_ok env topic_name num_frames.toNat num_frames.toNat 0
    (fun m _ => by simpa using hw m)
  cases hc : env.closeOk
  · refine ⟨?_, ⟨[Event.closeBag], ?_⟩⟩ <;>
      simp [write_random_pointcloud_bag, hopen, hc, hl, List.append_assoc]
  · refine ⟨?_, ⟨[Event.closeBag,
      Event.print ("Finished writing " ++ toString num_frames ++ " frames to " ++ bag_file)], ?_⟩⟩ <;>
      simp [write_random_pointcloud_bag, hopen, hc, hl, List.append_assoc]

/-- Closed form of a run in which the bag opens, frames before `k` are
written, the write of frame `k` fails, and the closing flush succeeds. -/
lemma run_err (env : Env) (ni : Bool) (bag_file topic_name : String) (num_frames : Int)
    (prior : List BagEntry) (k : Nat) (hopen : env.openOk = true)
    (hclose : env.closeOk = true)
    (hk : k < num_frames.toNat) (hbefore : ∀ m, m < k → env.writeOk m = true)
    (hfail : env.writeOk k = false) :
    write_random_pointcloud_bag env ni bag_file topic_name num_frames prior =
      ⟨initEvents ni ++ [Event.print ("Creating bag file: " ++ bag_file)] ++
         [Event.openBag bag_file] ++
         (concatMap (okFrameEvents env topic_name num_frames.toNat) (frameIdx 0 k) ++
            framePrints num_frames.toNat k topic_name ++
            [Event.writeBag topic_name (makeMsg env k) (env.clock (2 * k + 1))]) ++
         [Event.closeBag],
       (frameIdx 0 k).map (entryOf env topic_name),
       Except.error (IOError.writeFailed k)⟩ := by
  have hl := runLoop_err env topic_name num_frames.toNat k 0 num_frames.toNat hk
    (fun m hm => by simpa using hbefore m hm) (by simpa using hfail)
  simp only [Nat.zero_add] at hl
  simp [write_random_pointcloud_bag, hopen, hclose, hl, List.append_assoc]

lemma countP_write_initEvents (ni : Bool) :
    List.countP isWriteEvent (initEvents ni) = 0 := by
  cases ni <;> rfl

lemma countP_write_okFrames (env : Env) (topic : String) (n : Nat) :
    ∀ d s, List.countP isWriteEvent
        (concatMap (okFrameEvents env topic n) (frameIdx s d)) = d := by
  intro d
  induction d with
  | zero => intro s; rfl
  | succ d ih =>
    intro s
    have h1 : List.countP isWriteEvent (okFrameEvents env topic n s) = 1 := rfl
    simp [frameIdx, concatMap, List.countP_append, h1, ih (s + 1)]
    omega

lemma concatMap_extract (g : Nat → List β) :
    ∀ r s i, i < r → ∃ l t, concatMap g (frameIdx s r) = l ++ g (s + i) ++ t := by
  intro r
  induction r with
  | zero => intro s i h; exact absurd h (Nat.not_lt_zero i)
  | succ r ih =>
    intro s i h
    match i with
    | 0 => exact ⟨[], concatMap g (frameIdx (s + 1) r), by simp [frameIdx, concatMap]⟩
    | i + 1 =>
      obtain ⟨l, t, hl⟩ := ih (s + 1) i (Nat.lt_of_succ_lt_succ h)
      refine ⟨g s ++ l, t, ?_⟩
      have heq : s + 1 + i = s + (i + 1) := by omega
      rw [heq] at hl
      simp [frameIdx, concatMap, hl, List.append_assoc]

/-- C1: for every `frameCount > 0`, a run in which the bag opens and every
write succeeds leaves exactly `frameCount` entries on `channelName`, in
generation order (entry `i` carries the message built for frame `i`), and
each entry's payload decodes into 10 valid point records. -/
theorem C1_container_contents (env : Env) (ni : Bool) (bag_file topic_name : String)
    (num_frames : Int) (prior : List BagEntry)
    (hn : 0 < num_frames) (hopen : env.openOk = true) (hw : ∀ i, env.writeOk i = true)
    (hclose : env.closeOk = true) (hrng : ∀ a j k, goodF32 (env.rng a j k)) :
    (write_random_pointcloud_bag env ni bag_file topic_name num_frames prior).outcome
        = Except.ok () ∧
    (write_random_pointcloud_bag env ni bag_file topic_name num_frames prior).fileContent.length
        = num_frames.toNat ∧
    ∀ i (hi : i <
        (write_random_pointcloud_bag env ni bag_file topic_name num_frames prior).fileContent.length),
      ((write_random_pointcloud_bag env ni bag_file topic_name num_frames
          prior).fileContent.get ⟨i, hi⟩).1 = topic_name ∧
      ((write_random_pointcloud_bag env ni bag_file topic_name num_frames
          prior).fileContent.get ⟨i, hi⟩).2.1 = makeMsg env i ∧
      ((write_random_pointcloud_bag env ni bag_file topic_name num_frames
          prior).fileContent.get ⟨i, hi⟩).2.1.data.length = 16 * 10 ∧
      ∀ j k, j < 10 → k < 4 →
        decodeField (((write_random_pointcloud_bag env ni bag_file topic_name num_frames
            prior).fileContent.get ⟨i, hi⟩).2.1.data) j k = env.rng i j k ∧
        goodF32 (decodeField (((write_random_pointcloud_bag env ni bag_file topic_name
            num_frames prior).fileContent.get ⟨i, hi⟩).2.1.data) j k) := by
  have hrun := run_ok env ni bag_file topic_name num_frames prior hopen hw hclose
  rw [hrun]
  refine ⟨rfl, by simp [List.length_map, length_frameIdx], ?_⟩
  intro i hi
  have hg : ((frameIdx 0 num_frames.toNat).map (entryOf env topic_name)).get ⟨i, hi⟩ =
      entryOf env topic_name i := by
    simpa using get_map_frameIdx (entryOf env topic_name) num_frames.toNat 0 i hi
  rw [hg]
  refine ⟨rfl, rfl, rfl, ?_⟩
  intro j k hj hk
  have hdec : decodeField (cloudData (env.rng i)) j k = env.rng i j k :=
    decode_cloudData (env.rng i) j k hj hk (hrng i j k).1
  constructor
  · simpa [entryOf, makeMsg] using hdec
  · have : decodeField ((entryOf env topic_name i).2.1.data) j k = env.rng i j k := by
      simpa [entryOf, makeMsg] using hdec
    rw [this]
    exact hrng i j k

theorem C1_container_contents_witness :
    (0 : Int) < 2 ∧ envW.openOk = true ∧ (∀ i, envW.writeOk i = true) ∧
    envW.closeOk = true ∧ (∀ a j k, goodF32 (envW.rng a j k)) ∧
    (write_random_pointcloud_bag envW false "test.bag" "points" 2 []).outcome = Except.ok () ∧
    (write_random_pointcloud_bag envW false "test.bag" "points" 2 []).fileContent.length
      = (2 : Int).toNat :=
  ⟨by decide, rfl, fun _ => rfl, rfl, fun _ _ _ => goodF32_zero,
   (C1_container_contents envW false "test.bag" "points" 2 [] (by decide) rfl
      (fun _ => rfl) rfl (fun _ _ _ => goodF32_zero)).1,
   (C1_container_contents envW false "test.bag" "points" 2 [] (by decide) rfl
      (fun _ => rfl) rfl (fun _ _ _ => goodF32_zero)).2.1⟩

/-- C2: the payload of every frame's message is exactly 160 bytes, the
concatenation of 10 point records of 16 bytes each (record `j` occupies
bytes [16j, 16j+16)), packed little-endian with no padding
(`is_bigendian = false`, `point_step = 16`, `row_step = 160`), and each of
the four decoded float fields is finite and lies in [0, 1). -/
theorem C2_payload_format (env : Env) (i : Nat)
    (hrng : ∀ a j k, goodF32 (env.rng a j k)) :
    (makeMsg env i).data.length = 160 ∧
    (makeMsg env i).is_bigendian = false ∧
    (makeMsg env i).point_step = 16 ∧
    (makeMsg env i).row_step = 160 ∧
    (∀ j, j < 10 →
      ((makeMsg env i).data.drop (16 * j)).take 16 = packPoint (env.rng i j) ∧
      (packPoint (env.rng i j)).length = 16) ∧
    ∀ j k, j < 10 → k < 4 →
      decodeField (makeMsg env i).data j k = env.rng i j k ∧
      f32finite (decodeField (makeMsg env i).data j k) ∧
      0 ≤ f32val (decodeField (makeMsg env i).data j k) ∧
      f32val (decodeField (makeMsg env i).data j k) < 1 := by
  refine ⟨rfl, rfl, rfl, rfl, ?_, ?_⟩
  · intro j hj
    exact ⟨record_of_cloudData (env.rng i) j hj, rfl⟩
  · intro j k hj hk
    have hdec : decodeField (makeMsg env i).data j k = env.rng i j k :=
      decode_cloudData (env.rng i) j k hj hk (hrng i j k).1
    rw [hdec]
    exact ⟨rfl, (hrng i j k).2.1, (hrng i j k).2.2.1, (hrng i j k).2.2.2⟩

theorem C2_payload_format_witness :
    (∀ a j k, goodF32 (envW.rng a j k)) ∧
    (makeMsg envW 0).data.length = 160 ∧
    (makeMsg envW 0).is_bigendian = false :=
  ⟨fun _ _ _ => goodF32_zero,
   (C2_payload_format envW 0 (fun _ _ _ => goodF32_zero)).1,
   (C2_payload_format envW 0 (fun _ _ _ => goodF32_zero)).2.1⟩

/-- C3: when the node is already initialized, `rospy.init_node` raises the
conflict, the function catches it, logs it, and continues: the outcome and
the written entries are the same as when initialization succeeds, so the
conflict never reaches the caller and never prevents the frames from being
written. -/
theorem C3_init_conflict_swallowed (env : Env) (bag_file topic_name : String)
    (num_frames : Int) (prior : List BagEntry) :
    ros_init_node true = Except.error RosError.alreadyInit ∧
    Event.print "Node has already been initialized."
      ∈ (write_random_pointcloud_bag env true bag_file topic_name num_frames prior).events ∧
    (write_random_pointcloud_bag env true bag_file topic_name num_frames prior).outcome
      = (write_random_pointcloud_bag env false bag_file topic_name num_frames prior).outcome ∧
    (write_random_pointcloud_bag env true bag_file topic_name num_frames prior).fileContent
      = (write_random_pointcloud_bag env false bag_file topic_name num_frames prior).fileContent := by
  refine ⟨rfl, ?_, ?_, ?_⟩
  · unfold write_random_pointcloud_bag
    cases henv : env.openOk
    · simp [henv, initEvents, ros_init_node]
    · cases herr : (runLoop env topic_name num_frames.toNat 0 num_frames.toNat).2.2 <;>
        cases hc : env.closeOk <;>
        simp [henv, herr, hc, initEvents, ros_init_node]
  · unfold write_random_pointcloud_bag
    cases henv : env.openOk
    · simp [henv]
    · cases herr : (runLoop env topic_name num_frames.toNat 0 num_frames.toNat).2.2 <;>
        cases hc : env.closeOk <;> simp [henv, herr, hc]
  · unfold write_random_pointcloud_bag
    cases henv : env.openOk
    · simp [henv]
    · cases herr : (runLoop env topic_name num_frames.toNat 0 num_frames.toNat).2.2 <;>
        cases hc : env.closeOk <;> simp [henv, herr, hc]

/-- C4: I/O failures while opening, writing, or closing the container are
not caught.  If the bag cannot be opened the run aborts with that error and
no write is attempted; if the write of frame `k` fails (all earlier writes
succeeding, close succeeding) the run aborts with that error, only the
earlier frames are in the container, and `bag.write` was called exactly
`k + 1` times — one call per attempted frame, no retry; if the closing
flush fails the run aborts with that error, whether the loop completed or
had itself failed at frame `k` (Python's `with` propagates the exception
raised on exit). -/
theorem C4_io_failures_propagate (env : Env) (ni : Bool) (bag_file topic_name : String)
    (num_frames : Int) (prior : List BagEntry) (k : Nat) :
    (env.openOk = false →
      (write_random_pointcloud_bag env ni bag_file topic_name num_frames prior).outcome
        = Except.error IOError.openFailed ∧
      List.countP isWriteEvent
        (write_random_pointcloud_bag env ni bag_file topic_name num_frames prior).events = 0) ∧
    (env.openOk = true → env.closeOk = true →
      k < num_frames.toNat → (∀ m, m < k → env.writeOk m = true) →
      env.writeOk k = false →
      (write_random_pointcloud_bag env ni bag_file topic_name num_frames prior).outcome
        = Except.error (IOError.writeFailed k) ∧
      (write_random_pointcloud_bag env ni bag_file topic_name num_frames prior).fileContent
        = (frameIdx 0 k).map (entryOf env topic_name) ∧
      (write_random_pointcloud_bag env ni bag_file topic_name num_frames prior).fileContent.length
        = k ∧
      List.countP isWriteEvent
        (write_random_pointcloud_bag env ni bag_file topic_name num_frames prior).events
        = k + 1) ∧
    (env.openOk = true → env.closeOk = false → (∀ i, env.writeOk i = true) →
      (write_random_pointcloud_bag env ni bag_file topic_name num_frames prior).outcome
        = Except.error IOError.closeFailed ∧
      Event.closeBag
        ∈ (write_random_pointcloud_bag env ni bag_file topic_name num_frames prior).events) ∧
    (env.openOk = true → env.closeOk = false →
      k < num_frames.toNat → (∀ m, m < k → env.writeOk m = true) →
      env.writeOk k = false →
      (write_random_pointcloud_bag env ni bag_file topic_name num_frames prior).outcome
        = Except.error IOError.closeFailed) := by
  refine ⟨?_, ?_, ?_, ?_⟩
  · intro hopen
    unfold write_random_pointcloud_bag
    simp [hopen, List.countP_append, countP_write_initEvents, isWriteEvent]
  · intro hopen hclose hk hbefore hfail
    have hrun := run_err env ni bag_file topic_name num_frames prior k hopen hclose
      hk hbefore hfail
    rw [hrun]
    refine ⟨rfl, rfl, by simp [List.length_map, length_frameIdx], ?_⟩
    simp [List.countP_append, countP_write_initEvents, countP_write_okFrames,
      framePrints, isWriteEvent]
  · intro hopen hclose hw
    have hl := runLoop_ok env topic_name num_frames.toNat num_frames.toNat 0
      (fun m _ => by simpa using hw m)
    unfold write_random_pointcloud_bag
    simp [hopen, hclose, hl]
  · intro hopen hclose hk hbefore hfail
    have hl := runLoop_err env topic_name num_frames.toNat k 0 num_frames.toNat hk
      (fun m hm => by simpa using hbefore m hm) (by simpa using hfail)
    simp only [Nat.zero_add] at hl
    unfold write_random_pointcloud_bag
    simp [hopen, hclose, hl]

theorem C4_io_failures_propagate_witness :
    envO.openOk = false ∧
    (write_random_pointcloud_bag envO false "test.bag" "points" 2 []).outcome
      = Except.error IOError.openFailed ∧
    envF.openOk = true ∧ envF.closeOk = true ∧
    (∀ m, m < 1 → envF.writeOk m = true) ∧ envF.writeOk 1 = false ∧
    (write_random_pointcloud_bag envF false "test.bag" "points" 3 []).outcome
      = Except.error (IOError.writeFailed 1) ∧
    (write_random_pointcloud_bag envF false "test.bag" "points" 3 []).fileContent.length = 1 ∧
    List.countP isWriteEvent
      (write_random_pointcloud_bag envF false "test.bag" "points" 3 []).events = 2 ∧
    envC.openOk = true ∧ envC.closeOk = false ∧ (∀ i, envC.writeOk i = true) ∧
    (write_random_pointcloud_bag envC false "test.bag" "points" 2 []).outcome
      = Except.error IOError.closeFailed :=
  ⟨rfl,
   ((C4_io_failures_propagate envO false "test.bag" "points" 2 [] 0).1 rfl).1,
   rfl, rfl,
   fun m hm => by interval_cases m; rfl,
   rfl,
   ((C4_io_failures_propagate envF false "test.bag" "points" 3 [] 1).2.1 rfl rfl (by decide)
      (fun m hm => by interval_cases m; rfl) rfl).1,
   ((C4_io_failures_propagate envF false "test.bag" "points" 3 [] 1).2.1 rfl rfl (by decide)
      (fun m hm => by interval_cases m; rfl) rfl).2.2.1,
   ((C4_io_failures_propagate envF false "test.bag" "points" 3 [] 1).2.1 rfl rfl (by decide)
      (fun m hm => by interval_cases m; rfl) rfl).2.2.2,
   rfl, rfl, fun _ => rfl,
   ((C4_io_failures_propagate envC false "test.bag" "points" 2 [] 0).2.2.1 rfl rfl
      (fun _ => rfl)).1⟩

/-- C5: with a non-decreasing clock, the append timestamps of the container
entries are non-decreasing in insertion order on every successful run. -/
theorem C5_timestamps_nondecreasing (env : Env) (ni : Bool) (bag_file topic_name : String)
    (num_frames : Int) (prior : List BagEntry)
    (hclock : ∀ t, env.clock t ≤ env.clock (t + 1))
    (hopen : env.openOk = true) (hw : ∀ i, env.writeOk i = true) :
    ∀ a b (ha : a <
        (write_random_pointcloud_bag env ni bag_file topic_name num_frames prior).fileContent.length)
      (hb : b <
        (write_random_pointcloud_bag env ni bag_file topic_name num_frames prior).fileContent.length),
      a ≤ b →
      ((write_random_pointcloud_bag env ni bag_file topic_name num_frames
          prior).fileContent.get ⟨a, ha⟩).2.2 ≤
        ((write_random_pointcloud_bag env ni bag_file topic_name num_frames
            prior).fileContent.get ⟨b, hb⟩).2.2 := by
  have hmono : Monotone env.clock := monotone_nat_of_le_succ hclock
  have hcontent := (run_ok_content env ni bag_file topic_name num_frames prior hopen hw).1
  rw [hcontent]
  intro a b ha hb hab
  have hga := get_map_frameIdx (entryOf env topic_name) num_frames.toNat 0 a ha
  have hgb := get_map_frameIdx (entryOf env topic_name) num_frames.toNat 0 b hb
  rw [hga, hgb]
  simp only [entryOf, Nat.zero_add]
  exact hmono (by omega)

theorem C5_timestamps_nondecreasing_witness :
    (∀ t, envW.clock t ≤ envW.clock (t + 1)) ∧
    ∀ a b (ha : a <
        (write_random_pointcloud_bag envW false "test.bag" "points" 3 []).fileContent.length)
      (hb : b <
        (write_random_pointcloud_bag envW false "test.bag" "points" 3 []).fileContent.length),
      a ≤ b →
      ((write_random_pointcloud_bag envW false "test.bag" "points" 3
          []).fileContent.get ⟨a, ha⟩).2.2 ≤
        ((write_random_pointcloud_bag envW false "test.bag" "points" 3
            []).fileContent.get ⟨b, hb⟩).2.2 :=
  ⟨fun t => Nat.le_succ t,
   C5_timestamps_nondecreasing envW false "test.bag" "points" 3 []
     (fun t => Nat.le_succ t) rfl (fun _ => rfl)⟩

/-- C6: on every successful run, any two container entries carry the same
field descriptor list, namely x, y, z, intensity at byte offsets 0, 4, 8,
12, each a FLOAT32 with count 1, in that order. -/
theorem C6_fields_identical (env : Env) (ni : Bool) (bag_file topic_name : String)
    (num_frames : Int) (prior : List BagEntry)
    (hopen : env.openOk = true) (hw : ∀ i, env.writeOk i = true) :
    ∀ a b (ha : a <
        (write_random_pointcloud_bag env ni bag_file topic_name num_frames prior).fileContent.length)
      (hb : b <
        (write_random_pointcloud_bag env ni bag_file topic_name num_frames prior).fileContent.length),
      ((write_random_pointcloud_bag env ni bag_file topic_name num_frames
          prior).fileContent.get ⟨a, ha⟩).2.1.fields =
        ((write_random_pointcloud_bag env ni bag_file topic_name num_frames
            prior).fileContent.get ⟨b, hb⟩).2.1.fields ∧
      ((write_random_pointcloud_bag env ni bag_file topic_name num_frames
          prior).fileContent.get ⟨a, ha⟩).2.1.fields =
        [⟨"x", 0, FLOAT32, 1⟩, ⟨"y", 4, FLOAT32, 1⟩,
         ⟨"z", 8, FLOAT32, 1⟩, ⟨"intensity", 12, FLOAT32, 1⟩] := by
  have hcontent := (run_ok_content env ni bag_file topic_name num_frames prior hopen hw).1
  rw [hcontent]
  intro a b ha hb
  have hga := get_map_frameIdx (entryOf env topic_name) num_frames.toNat 0 a ha
  have hgb := get_map_frameIdx (entryOf env topic_name) num_frames.toNat 0 b hb
  rw [hga, hgb]
  exact ⟨rfl, rfl⟩

theorem C6_fields_identical_witness :
    envW.openOk = true ∧ (∀ i, envW.writeOk i = true) ∧
    ∀ a b (ha : a <
        (write_random_pointcloud_bag envW false "test.bag" "points" 2 []).fileContent.length)
      (hb : b <
        (write_random_pointcloud_bag envW false "test.bag" "points" 2 []).fileContent.length),
      ((write_random_pointcloud_bag envW false "test.bag" "points" 2
          []).fileContent.get ⟨a, ha⟩).2.1.fields =
        ((write_random_pointcloud_bag envW false "test.bag" "points" 2
            []).fileContent.get ⟨b, hb⟩).2.1.fields ∧
      ((write_random_pointcloud_bag envW false "test.bag" "points" 2
          []).fileContent.get ⟨a, ha⟩).2.1.fields =
        [⟨"x", 0, FLOAT32, 1⟩, ⟨"y", 4, FLOAT32, 1⟩,
         ⟨"z", 8, FLOAT32, 1⟩, ⟨"intensity", 12, FLOAT32, 1⟩] :=
  ⟨rfl, fun _ => rfl,
   C6_fields_identical envW false "test.bag" "points" 2 [] rfl (fun _ => rfl)⟩

/-- C7: opening the bag in write mode truncates it: the run's result does
not depend on the prior content at the output path, and on a fully
successful run the container holds exactly the entries of the current run. -/
theorem C7_fresh_overwrite (env : Env) (ni : Bool) (bag_file topic_name : String)
    (num_frames : Int) (p1 p2 : List BagEntry) (hopen : env.openOk = true) :
    write_random_pointcloud_bag env ni bag_file topic_name num_frames p1 =
      write_random_pointcloud_bag env ni bag_file topic_name num_frames p2 ∧
    ((∀ i, env.writeOk i = true) →
      (write_random_pointcloud_bag env ni bag_file topic_name num_frames p1).fileContent
        = (frameIdx 0 num_frames.toNat).map (entryOf env topic_name)) := by
  constructor
  · unfold write_random_pointcloud_bag
    simp [hopen]
  · intro hw
    exact (run_ok_content env ni bag_file topic_name num_frames p1 hopen hw).1

theorem C7_fresh_overwrite_witness :
    envW.openOk = true ∧
    write_random_pointcloud_bag envW false "test.bag" "points" 2
        [("stale", makeMsg envW 0, 0)] =
      write_random_pointcloud_bag envW false "test.bag" "points" 2 [] ∧
    (write_random_pointcloud_bag envW false "test.bag" "points" 2
        [("stale", makeMsg envW 0, 0)]).fileContent
      = (frameIdx 0 (2 : Int).toNat).map (entryOf envW "points") :=
  ⟨rfl,
   (C7_fresh_overwrite envW false "test.bag" "points" 2
      [("stale", makeMsg envW 0, 0)] [] rfl).1,
   (C7_fresh_overwrite envW false "test.bag" "points" 2
      [("stale", makeMsg envW 0, 0)] [] rfl).2 (fun _ => rfl)⟩

/-- C8: on every successful run, the event immediately following the
`bag.write` call of each frame `i` is the fixed 100 ms sleep. -/
theorem C8_sleep_after_each_frame (env : Env) (ni : Bool) (bag_file topic_name : String)
    (num_frames : Int) (prior : List BagEntry)
    (hopen : env.openOk = true) (hw : ∀ i, env.writeOk i = true) :
    ∀ i, i < num_frames.toNat →
      ∃ l t, (write_random_pointcloud_bag env ni bag_file topic_name num_frames prior).events =
        l ++ [Event.writeBag topic_name (makeMsg env i) (env.clock (2 * i + 1)),
              Event.sleepMs 100] ++ t := by
  obtain ⟨-, post, hev⟩ := run_ok_content env ni bag_file topic_name num_frames prior hopen hw
  rw [hev]
  intro i hi
  obtain ⟨l, t, hl⟩ :=
    concatMap_extract (okFrameEvents env topic_name num_frames.toNat) num_frames.toNat 0 i hi
  rw [Nat.zero_add] at hl
  refine ⟨initEvents ni ++ [Event.print ("Creating bag file: " ++ bag_file)] ++
      [Event.openBag bag_file] ++ l ++ framePrints num_frames.toNat i topic_name,
    t ++ post, ?_⟩
  simp [hl, okFrameEvents, List.append_assoc]

theorem C8_sleep_after_each_frame_witness :
    envW.openOk = true ∧ (∀ i, envW.writeOk i = true) ∧ 0 < (1 : Int).toNat ∧
    ∃ l t, (write_random_pointcloud_bag envW false "test.bag" "points" 1 []).events =
      l ++ [Event.writeBag "points" (makeMsg envW 0) (envW.clock 1), Event.sleepMs 100] ++ t :=
  ⟨rfl, fun _ => rfl, by decide,
   C8_sleep_after_each_frame envW false "test.bag" "points" 1 [] rfl (fun _ => rfl) 0 (by decide)⟩

/-- C9: the precondition `frameCount > 0` is not enforced: for a
non-positive frame count the run raises no error, the bag file is still
created (opened in write mode and closed), and the container ends up with
zero entries. -/
theorem C9_nonpositive_framecount (env : Env) (ni : Bool) (bag_file topic_name : String)
    (prior : List BagEntry) (num_frames : Int)
    (hn : num_frames ≤ 0) (hopen : env.openOk = true) (hclose : env.closeOk = true) :
    (write_random_pointcloud_bag env ni bag_file topic_name num_frames prior).outcome
      = Except.ok () ∧
    (write_random_pointcloud_bag env ni bag_file topic_name num_frames prior).fileContent = [] ∧
    Event.openBag bag_file
      ∈ (write_random_pointcloud_bag env ni bag_file topic_name num_frames prior).events ∧
    Event.closeBag
      ∈ (write_random_pointcloud_bag env ni bag_file topic_name num_frames prior).events := by
  have h0 : num_frames.toNat = 0 := Int.toNat_of_nonpos hn
  unfold write_random_pointcloud_bag
  rw [h0]
  refine ⟨?_, ?_, ?_, ?_⟩ <;> simp [hopen, hclose, runLoop]

theorem C9_nonpositive_framecount_witness :
    (-1 : Int) ≤ 0 ∧ envW.openOk = true ∧ envW.closeOk = true ∧
    (write_random_pointcloud_bag envW false "test.bag" "points" (-1) []).outcome
      = Except.ok () ∧
    (write_random_pointcloud_bag envW false "test.bag" "points" (-1) []).fileContent = [] :=
  ⟨by decide, rfl, rfl,
   (C9_nonpositive_framecount envW false "test.bag" "points" [] (-1) (by decide) rfl rfl).1,
   (C9_nonpositive_framecount envW false "test.bag" "points" [] (-1) (by decide) rfl rfl).2.1⟩

/-- C10: with a non-decreasing clock, each entry's capture timestamp (taken
at message-build time) is at most its append timestamp (taken at the
`bag.write` call), on every successful run. -/
theorem C10_capture_before_append (env : Env) (ni : Bool) (bag_file topic_name : String)
    (num_frames : Int) (prior : List BagEntry)
    (hclock : ∀ t, env.clock t ≤ env.clock (t + 1))
    (hopen : env.openOk = true) (hw : ∀ i, env.writeOk i = true) :
    ∀ a (ha : a <
        (write_random_pointcloud_bag env ni bag_file topic_name num_frames prior).fileContent.length),
      ((write_random_pointcloud_bag env ni bag_file topic_name num_frames
          prior).fileContent.get ⟨a, ha⟩).2.1.stamp ≤
        ((write_random_pointcloud_bag env ni bag_file topic_name num_frames
            prior).fileContent.get ⟨a, ha⟩).2.2 := by
  have hcontent := (run_ok_content env ni bag_file topic_name num_frames prior hopen hw).1
  rw [hcontent]
  intro a ha
  have hga := get_map_frameIdx (entryOf env topic_name) num_frames.toNat 0 a ha
  rw [hga]
  simp only [entryOf, makeMsg, Nat.zero_add]
  exact hclock (2 * a)

theorem C10_capture_before_append_witness :
    (∀ t, envW.clock t ≤ envW.clock (t + 1)) ∧
    ∀ a (ha : a <
        (write_random_pointcloud_bag envW false "test.bag" "points" 2 []).fileContent.length),
      ((write_random_pointcloud_bag envW false "test.bag" "points" 2
          []).fileContent.get ⟨a, ha⟩).2.1.stamp ≤
        ((write_random_pointcloud_bag envW false "test.bag" "points" 2
            []).fileContent.get ⟨a, ha⟩).2.2 :=
  ⟨fun t => Nat.le_succ t,
   C10_capture_before_append envW false "test.bag" "points" 2 []
     (fun t => Nat.le_succ t) rfl (fun _ => rfl)⟩

end GenPointclouds
